import Mathlib

/-!
Result.hpp: `Option<_Type>` and `Switch<_Type_1,_Type_2>`.

A shallow embedding of the two class templates of `Result.hpp`.

Conventions of the embedding.

* `unsigned char` is `Fin 256`.
* A C++ object of type `_Type` is a Lean value of a type `T`.  Copy construction
  and move construction both produce an object holding the value of their
  argument; move construction additionally leaves its argument in the state
  `MoveConstructible.moved_from`.
* A constructor runs on storage that already holds some bytes.  A member that a
  constructor initialises from itself (`has_val_(has_val_)`) keeps the byte the
  storage held before; that byte is the explicit argument `mem`.
* `new` allocates a fresh cell in an explicit heap; `Result.hpp` contains no
  `delete`, so cells are never removed.
* An operation whose behaviour C++ leaves undefined on some input returns
  `none` there.
* `get_first()` and `get_second()` cast the `void*` without a check.  What a
  read of a stored object at the type of the other alternative yields depends on
  the two types and is given by the class `Reinterpret`.
-/

/-- The C++ type `unsigned char`. -/
abbrev uchar := Fin 256

/-- Result of an expression that C++ defines only on part of its inputs:
`none` stands for undefined behaviour. -/
abbrev Defined (α : Type) := Option α

/-- What the move constructor of `T` leaves behind in the object it moved from. -/
class MoveConstructible (T : Type) where
  moved_from : T → T

instance : MoveConstructible Nat := ⟨fun n => n⟩

instance : MoveConstructible Int := ⟨fun n => n⟩

instance : MoveConstructible String := ⟨fun _ => ""⟩

/-- How an object of one alternative reads through a pointer to the other
alternative, as `static_cast` followed by a dereference does it.  The result is
`none` where C++ leaves the read undefined (unrelated types such as `int` and
`std::string`) and the value read where the two types may alias (such as `int`
and `unsigned`). -/
class Reinterpret (A B : Type) where
  first_at_second : A → Defined B
  second_at_first : B → Defined A

/-- The pair `int`, `std::string`: a read at the other type is undefined. -/
instance : Reinterpret Nat String :=
  ⟨fun _ => none, fun _ => none⟩

/-- The pair `int`, `unsigned` (32 bits): each may be read at the other type and
yields the value with the same representation. -/
instance : Reinterpret Int Nat :=
  ⟨fun a => some (a % 2 ^ 32).toNat, fun u => some (Int.bmod (u % 2 ^ 32 : Nat) (2 ^ 32))⟩

namespace tresult

/-- The class template `Option<_Type>`: members `has_val_` and `val_`. -/
structure Option (T : Type) where
  has_val_ : uchar
  val_ : T
  deriving DecidableEq, Repr

namespace Option

variable {T : Type}

/-- Protected `Option(unsigned char _has_val, _Type&& _val)`, lines 40-46:
`has_val_(has_val_)` initialises the member from itself, so the member keeps the
byte `mem` of the storage; `_has_val` is not read.  `val_` is move-constructed
from `_val`. -/
def ctor_move (mem : uchar) (_has_val : uchar) (_val : T) : Option T :=
  { has_val_ := mem, val_ := _val }

/-- Protected `Option(unsigned char _has_val, _Type const& _val)`, lines 49-55:
the same self-initialisation of `has_val_`; `val_` is copy-constructed. -/
def ctor_copy (mem : uchar) (_has_val : uchar) (_val : T) : Option T :=
  { has_val_ := mem, val_ := _val }

/-- Protected `Option(unsigned char _has_val)`, lines 58-64: the same
self-initialisation of `has_val_`; `val_` is value-initialised. -/
def ctor_flag [Inhabited T] (mem : uchar) (_has_val : uchar) : Option T :=
  { has_val_ := mem, val_ := default }

/-- Protected `Option()`, lines 67-73: `has_val_(0)`, `val_()`. -/
def ctor_default [Inhabited T] : Option T :=
  { has_val_ := 0, val_ := default }

/-- Public move constructor `Option(Option&& _other)`, lines 78-85.  Returns the
constructed object and the state of `_other` after the call: its `val_` has been
moved from and its `has_val_` is set to 0. -/
def move_ctor [MoveConstructible T] (_other : Option T) : Option T × Option T :=
  ({ has_val_ := _other.has_val_, val_ := _other.val_ },
   { has_val_ := 0, val_ := MoveConstructible.moved_from _other.val_ })

/-- Static `copy_from(Option const& _other)`, lines 96-101.  Returns the new
object and `_other`, which a `const&` parameter leaves as it was. -/
def copy_from (mem : uchar) (_other : Option T) : Option T × Option T :=
  (ctor_copy mem _other.has_val_ _other.val_, _other)

/-- Static `move_from(Option& _other)`, lines 104-109: calls the protected
two-argument constructor on `std::move(_other.val_)`.  Returns the new object
and the state of `_other` after the call; `_other.has_val_` is not written. -/
def move_from [MoveConstructible T] (mem : uchar) (_other : Option T) :
    Option T × Option T :=
  (ctor_move mem _other.has_val_ _other.val_,
   { has_val_ := _other.has_val_, val_ := MoveConstructible.moved_from _other.val_ })

/-- Static `Some(_Type&& _val)`, lines 120-125. -/
def Some (mem : uchar) (_val : T) : Option T :=
  ctor_move mem 1 _val

/-- Static `Some(_Type const& _val)`, lines 131-136 (copyable, non-movable types). -/
def Some_const_ref (mem : uchar) (_val : T) : Option T :=
  ctor_copy mem 1 _val

/-- Static `Some_default()`, lines 139-143. -/
def Some_default [Inhabited T] (mem : uchar) : Option T :=
  ctor_flag mem 1

/-- Static `Some_copy_from(_Type const& _val)`, lines 146-150. -/
def Some_copy_from (mem : uchar) (_val : T) : Option T :=
  ctor_copy mem 1 _val

/-- Static `None()` for default-constructible types, lines 153-158. -/
def None [Inhabited T] (mem : uchar) : Option T :=
  ctor_flag mem 0

/-- Static `None()` for types without a default constructor, lines 161-168.
`fake` is the object that the zero-filled buffer `_fake` is read as. -/
def None_fake (mem : uchar) (fake : T) : Option T :=
  ctor_move mem 0 fake

/-- Member `is_some() const`, lines 171-173. -/
def is_some (o : Option T) : Bool :=
  o.has_val_ == 1

/-- Member `is_none() const`, lines 174-176. -/
def is_none (o : Option T) : Bool :=
  o.has_val_ == 0

/-- Member `unwrap()`, lines 177-182: returns `val_` without looking at the flag. -/
def unwrap (o : Option T) : T :=
  o.val_

/-- Member `unwrap_or(_Type const& _val)`, lines 183-190 (both overloads have
the same body).  Returns the object referred to by the result and the state of
`*this` after the call. -/
def unwrap_or (o : Option T) (_val : T) : T × Option T :=
  (if o.has_val_ ≠ 0 then o.val_ else _val, o)

end Option

/-- A `void*`: 0 is `nullptr`, `n + 1` is the address of heap cell `n`. -/
abbrev ptr := Nat

/-- The free store as `Switch<_Type_1,_Type_2>` uses it: every cell was created
by `new _Type_1(..)` (left) or `new _Type_2(..)` (right).  `Result.hpp` has no
`delete`, so a cell, once allocated, stays allocated. -/
structure Heap (A B : Type) where
  cells : List (A ⊕ B)

namespace Heap

variable {A B : Type}

/-- The free store before any allocation. -/
def empty : Heap A B :=
  { cells := [] }

/-- A `new` expression: the address of the fresh cell and the store after it. -/
def alloc (h : Heap A B) (x : A ⊕ B) : ptr × Heap A B :=
  (h.cells.length + 1, { cells := h.cells ++ [x] })

/-- The object a pointer points to; undefined for `nullptr` and for an address
that was never allocated. -/
def deref (h : Heap A B) (p : ptr) : Defined (A ⊕ B) :=
  if p = 0 then none else h.cells[p - 1]?

end Heap

/-- The class template `Switch<_Type_1,_Type_2>`: members `is_first_` and `data_`. -/
structure Switch (A B : Type) where
  is_first_ : uchar
  data_ : ptr
  deriving DecidableEq, Repr

namespace Switch

variable {A B : Type}

/-- Protected `Switch()`, lines 203-207: `new _Type_1()`, `is_first_(1)`. -/
def ctor_default [Inhabited A] (h : Heap A B) : Switch A B × Heap A B :=
  ({ is_first_ := 1, data_ := (h.alloc (Sum.inl default)).1 }, (h.alloc (Sum.inl default)).2)

/-- Protected `Switch(_Type_1 const& _val)`, lines 209-213. -/
def ctor_copy_1 (_val : A) (h : Heap A B) : Switch A B × Heap A B :=
  ({ is_first_ := 1, data_ := (h.alloc (Sum.inl _val)).1 }, (h.alloc (Sum.inl _val)).2)

/-- Protected `Switch(_Type_1&& _val)`, lines 215-219. -/
def ctor_move_1 (_val : A) (h : Heap A B) : Switch A B × Heap A B :=
  ({ is_first_ := 1, data_ := (h.alloc (Sum.inl _val)).1 }, (h.alloc (Sum.inl _val)).2)

/-- Protected `Switch(_Type_2 const& _val)`, lines 221-225: `new _Type_2(_val)`
and, as written in the source, `is_first_(1)`. -/
def ctor_copy_2 (_val : B) (h : Heap A B) : Switch A B × Heap A B :=
  ({ is_first_ := 1, data_ := (h.alloc (Sum.inr _val)).1 }, (h.alloc (Sum.inr _val)).2)

/-- Protected `Switch(_Type_2&& _val)`, lines 227-231: `new _Type_2(..)` and, as
written in the source, `is_first_(1)`. -/
def ctor_move_2 (_val : B) (h : Heap A B) : Switch A B × Heap A B :=
  ({ is_first_ := 1, data_ := (h.alloc (Sum.inr _val)).1 }, (h.alloc (Sum.inr _val)).2)

/-- Public move constructor `Switch(Switch&& _other)`, lines 234-239.  Returns
the constructed object and the state of `_other` after the call. -/
def move_ctor (_other : Switch A B) : Switch A B × Switch A B :=
  ({ is_first_ := _other.is_first_, data_ := _other.data_ },
   { is_first_ := 1, data_ := 0 })

/-- Static `First()`, lines 248-253. -/
def First_default [Inhabited A] (h : Heap A B) : Switch A B × Heap A B :=
  ctor_default h

/-- Static `First(_Type_1&& _val)`, lines 255-260. -/
def First (_val : A) (h : Heap A B) : Switch A B × Heap A B :=
  ctor_move_1 _val h

/-- Static `First(_Type_1 const& _val)`, lines 262-267. -/
def First_const_ref (_val : A) (h : Heap A B) : Switch A B × Heap A B :=
  ctor_copy_1 _val h

/-- Static `Second()`, lines 269-274: `Switch(_Type_2{})`. -/
def Second_default [Inhabited B] (h : Heap A B) : Switch A B × Heap A B :=
  ctor_move_2 default h

/-- Static `Second(_Type_2&& _val)`, lines 276-281. -/
def Second (_val : B) (h : Heap A B) : Switch A B × Heap A B :=
  ctor_move_2 _val h

/-- Static `Second(_Type_2 const& _val)`, lines 283-288. -/
def Second_const_ref (_val : B) (h : Heap A B) : Switch A B × Heap A B :=
  ctor_copy_2 _val h

/-- Static `move_from(Switch&& _other)`, lines 295-299. -/
def move_from (_other : Switch A B) : Switch A B × Switch A B :=
  move_ctor _other

/-- Member `is_first()`, lines 306-308. -/
def is_first (s : Switch A B) : Bool :=
  s.is_first_ == 1

/-- Member `is_second()`, lines 309-311: `is_first_ != 0`. -/
def is_second (s : Switch A B) : Bool :=
  s.is_first_ != 0

/-- Member `get_first()`, lines 312-314: `*(static_cast<_Type_1*>(data_))`, with
no test of `is_first_`.  A stored `_Type_1` is returned; a stored `_Type_2` is
read at `_Type_1`; a null or unallocated `data_` makes the call undefined. -/
def get_first [Reinterpret A B] (s : Switch A B) (h : Heap A B) : Defined A :=
  match h.deref s.data_ with
  | some (Sum.inl a) => some a
  | some (Sum.inr b) => Reinterpret.second_at_first b
  | none => none

/-- Member `get_second()`, lines 315-317: `*(static_cast<_Type_2*>(data_))`,
with no test of `is_first_`.  A stored `_Type_2` is returned; a stored `_Type_1`
is read at `_Type_2`; a null or unallocated `data_` makes the call undefined. -/
def get_second [Reinterpret A B] (s : Switch A B) (h : Heap A B) : Defined B :=
  match h.deref s.data_ with
  | some (Sum.inr b) => some b
  | some (Sum.inl a) => Reinterpret.first_at_second a
  | none => none

end Switch

/-! ## Outcomes of accessor calls, destruction, obtainable unions -/

/-- The two failure reports named by the specification (section 7).
`Result.hpp` contains no statement that produces either of them. -/
inductive AccessError where
  | EmptyAccess
  | WrongVariantAccess
  deriving DecidableEq, Repr

/-- What a call of an accessor does: it returns an object, it reports a
failure, or its behaviour is undefined. -/
inductive Outcome (α : Type) where
  | returns (a : α)
  | fails (e : AccessError)
  | undefined
  deriving DecidableEq, Repr

namespace Option

variable {T : Type}

/-- The call `unwrap()`, lines 177-182: a `noexcept` function whose body is the
single statement `return val_;`, so it returns in every state of the flag. -/
def unwrap_outcome (o : Option T) : Outcome T :=
  Outcome.returns (unwrap o)

end Option

namespace Heap

variable {A B : Type}

/-- Number of allocations that have not been released. -/
def outstanding (h : Heap A B) : Nat :=
  h.cells.length

end Heap

namespace Switch

variable {A B : Type}

/-- The call `get_first()`, lines 312-314: a `noexcept` function with no test
of `is_first_`; it returns the pointee where the dereference is defined. -/
def get_first_outcome [Reinterpret A B] (s : Switch A B) (h : Heap A B) : Outcome A :=
  match get_first s h with
  | some a => Outcome.returns a
  | none => Outcome.undefined

/-- The call `get_second()`, lines 315-317: a `noexcept` function with no test
of `is_first_`; it returns the pointee where the dereference is defined. -/
def get_second_outcome [Reinterpret A B] (s : Switch A B) (h : Heap A B) : Outcome B :=
  match get_second s h with
  | some b => Outcome.returns b
  | none => Outcome.undefined

/-- The destructor of `Switch`.  The class declares none (lines 197-320), so it
is the implicit one: it ends the lifetime of the members `is_first_` and
`data_`, a byte and a raw pointer, and leaves the free store as it is. -/
def dtor (_s : Switch A B) (h : Heap A B) : Heap A B :=
  h

/-- One union constructed by `First(a)` (left) or `Second(b)` (right) and then
destroyed, for each element of the list in sequence. -/
def construct_destroy : List (A ⊕ B) → Heap A B → Heap A B
  | [], h => h
  | Sum.inl a :: xs, h => construct_destroy xs (dtor (First a h).1 (First a h).2)
  | Sum.inr b :: xs, h => construct_destroy xs (dtor (Second b h).1 (Second b h).2)

/-- A union that holds its value: `Holding s h x` says that `s`, in the free
store `h`, was built by a factory for the value `x` (left for a `First`
factory, right for a `Second` factory) or is the destination of a chain of move
constructions from such a union; later allocations may have extended `h`. -/
inductive Holding : Switch A B → Heap A B → A ⊕ B → Prop where
  | first_default [Inhabited A] (h : Heap A B) :
      Holding (First_default h).1 (First_default h).2 (Sum.inl default)
  | first (a : A) (h : Heap A B) : Holding (First a h).1 (First a h).2 (Sum.inl a)
  | first_const_ref (a : A) (h : Heap A B) :
      Holding (First_const_ref a h).1 (First_const_ref a h).2 (Sum.inl a)
  | second_default [Inhabited B] (h : Heap A B) :
      Holding (Second_default h).1 (Second_default h).2 (Sum.inr default)
  | second (b : B) (h : Heap A B) : Holding (Second b h).1 (Second b h).2 (Sum.inr b)
  | second_const_ref (b : B) (h : Heap A B) :
      Holding (Second_const_ref b h).1 (Second_const_ref b h).2 (Sum.inr b)
  | move_dst {s : Switch A B} {h : Heap A B} {x : A ⊕ B} :
      Holding s h x → Holding (move_ctor s).1 h x
  | grow {s : Switch A B} {h : Heap A B} {x : A ⊕ B} (y : A ⊕ B) :
      Holding s h x → Holding s (h.alloc y).2 x

/-- Every union a program can obtain: one built by a factory, and the destination
and the moved-from source of a move construction (or of `move_from`) applied
to an obtainable union. -/
inductive Obtainable : Switch A B → Prop where
  | holding {s : Switch A B} {h : Heap A B} {x : A ⊕ B} : Holding s h x → Obtainable s
  | move_dst {s : Switch A B} : Obtainable s → Obtainable (move_ctor s).1
  | move_src {s : Switch A B} : Obtainable s → Obtainable (move_ctor s).2
  | move_from_dst {s : Switch A B} : Obtainable s → Obtainable (move_from s).1
  | move_from_src {s : Switch A B} : Obtainable s → Obtainable (move_from s).2

end Switch

namespace Option

variable {T : Type}

/-- Every Option a program can obtain through the public interface: the results
of the factories in storage holding any byte, the copy made by `copy_from`, the
result of `move_from` and its source afterwards, and the destination and the
source of the move constructor. -/
inductive Obtainable : Option T → Prop where
  | some (mem : uchar) (v : T) : Obtainable (Some mem v)
  | some_const_ref (mem : uchar) (v : T) : Obtainable (Some_const_ref mem v)
  | some_default [Inhabited T] (mem : uchar) : Obtainable (Some_default mem)
  | some_copy_from (mem : uchar) (v : T) : Obtainable (Some_copy_from mem v)
  | none [Inhabited T] (mem : uchar) : Obtainable (None mem)
  | none_fake (mem : uchar) (fake : T) : Obtainable (None_fake mem fake)
  | copy_from (mem : uchar) {o : Option T} : Obtainable o → Obtainable (copy_from mem o).1
  | move_from_dst [MoveConstructible T] (mem : uchar) {o : Option T} :
      Obtainable o → Obtainable (move_from mem o).1
  | move_from_src [MoveConstructible T] (mem : uchar) {o : Option T} :
      Obtainable o → Obtainable (move_from mem o).2
  | move_dst [MoveConstructible T] {o : Option T} : Obtainable o → Obtainable (move_ctor o).1
  | move_src [MoveConstructible T] {o : Option T} : Obtainable o → Obtainable (move_ctor o).2

end Option

/-! ## Properties of `Option` -/

namespace Option

variable {T : Type}

/-- C1 (defect in the code): the `Some` factories pass the flag 1, but the
constructor they call initialises `has_val_` from itself, so the flag of the
result is the byte the storage held.  In storage whose byte is 0, `Some(42)`,
`Some_copy_from(42)` and `Some_default()` all answer `is_some() == false` and
`is_none() == true`; in general `is_some()` answers whether that byte was 1. -/
theorem Some_flag_from_storage :
    (is_some (Some 0 (42 : Nat)) = false ∧ is_none (Some 0 (42 : Nat)) = true) ∧
    (is_some (Some_copy_from 0 (42 : Nat)) = false ∧
      is_none (Some_copy_from 0 (42 : Nat)) = true) ∧
    (is_some (Some_default 0 : Option Nat) = false ∧
      is_none (Some_default 0 : Option Nat) = true) ∧
    (∀ (mem : uchar) (v : Nat),
      is_some (Some mem v) = decide (mem = 1) ∧
      is_some (Some_copy_from mem v) = decide (mem = 1) ∧
      is_some (Some_default mem : Option Nat) = decide (mem = 1)) := by
  refine ⟨by decide, by decide, by decide, ?_⟩
  intro mem v
  by_cases h : mem = 1 <;>
    simp [is_some, Some, Some_copy_from, Some_default, ctor_move, ctor_copy, ctor_flag, h]

/-- C2 (defect in the code): `None()` passes the flag 0, but the constructor it
calls initialises `has_val_` from itself.  In storage whose byte is 1, `None()`
for `int` answers `is_some() == true` and `is_none() == false`; in general
`is_none()` answers whether that byte was 0, for both overloads of `None()`. -/
theorem None_flag_from_storage :
    (is_some (None 1 : Option Int) = true ∧ is_none (None 1 : Option Int) = false) ∧
    (is_some (None_fake 1 (7 : Int)) = true ∧ is_none (None_fake 1 (7 : Int)) = false) ∧
    (∀ (mem : uchar) (fake : Int),
      is_none (None mem : Option Int) = decide (mem = 0) ∧
      is_none (None_fake mem fake) = decide (mem = 0)) := by
  refine ⟨by decide, by decide, ?_⟩
  intro mem fake
  by_cases h : mem = 0 <;> simp [is_none, None, None_fake, ctor_move, ctor_flag, h]

/-- C5: move-constructing from a present source that holds `v` leaves the source
with `is_none()` true and gives a destination with `is_some()` true whose
`unwrap()` is `v`. -/
theorem move_ctor_present [MoveConstructible T] (o : Option T) (v : T)
    (hpresent : is_some o = true) (hv : unwrap o = v) :
    is_none (move_ctor o).2 = true ∧
    is_some (move_ctor o).1 = true ∧
    unwrap (move_ctor o).1 = v := by
  refine ⟨by simp [move_ctor, is_none], ?_, ?_⟩
  · simpa [move_ctor, is_some] using hpresent
  · simpa [move_ctor, unwrap] using hv

/-- Witness of C5 at the source `{has_val_ = 1, val_ = 42}`. -/
theorem move_ctor_present_witness :
    is_some ({ has_val_ := 1, val_ := 42 } : Option Nat) = true ∧
    unwrap ({ has_val_ := 1, val_ := 42 } : Option Nat) = 42 ∧
    is_none (move_ctor ({ has_val_ := 1, val_ := 42 } : Option Nat)).2 = true ∧
    is_some (move_ctor ({ has_val_ := 1, val_ := 42 } : Option Nat)).1 = true ∧
    unwrap (move_ctor ({ has_val_ := 1, val_ := 42 } : Option Nat)).1 = 42 :=
  ⟨by decide, rfl, move_ctor_present { has_val_ := 1, val_ := 42 } 42 (by decide) rfl⟩

/-- C6 (defect in the code): `move_from(Option&)` never writes the flag of its
argument, unlike the move constructor.  From the present source
`{has_val_ = 1, val_ = 42}` the source afterwards still answers
`is_some() == true`, `is_none() == false` and still holds 42, and the returned
object, built in storage whose byte is 0, answers `is_some() == false`.  In
general the source keeps its flag. -/
theorem move_from_keeps_source_flag :
    (is_none (move_from 0 ({ has_val_ := 1, val_ := 42 } : Option Nat)).2 = false ∧
      is_some (move_from 0 ({ has_val_ := 1, val_ := 42 } : Option Nat)).2 = true ∧
      unwrap (move_from 0 ({ has_val_ := 1, val_ := 42 } : Option Nat)).2 = 42 ∧
      is_some (move_from 0 ({ has_val_ := 1, val_ := 42 } : Option Nat)).1 = false) ∧
    (∀ (mem : uchar) (o : Option Nat),
      (move_from mem o).2.has_val_ = o.has_val_ ∧ (move_from mem o).1.has_val_ = mem ∧
      (move_from mem o).1.val_ = o.val_) := by
  refine ⟨by decide, ?_⟩
  intro mem o
  simp [move_from, ctor_move]

/-- C8: `Some(v).unwrap()`, `Some_copy_from(v).unwrap()` and the copying
overload of `Some` all yield `v`, in any storage. -/
theorem unwrap_Some (mem : uchar) (v : T) :
    unwrap (Some mem v) = v ∧
    unwrap (Some_copy_from mem v) = v ∧
    unwrap (Some_const_ref mem v) = v :=
  ⟨rfl, rfl, rfl⟩

/-- C9 (defect in the code): the constructor called by `Some` initialises
`has_val_` from itself, so `Some(5)` built in storage whose byte is 2 carries the
flag 2.  It answers `is_some() == false`, yet `unwrap_or(7)`, which tests the
flag for non-zero, returns the held 5, not 7. -/
theorem unwrap_or_flag_two :
    is_some (Some 2 (5 : Nat)) = false ∧
    (unwrap_or (Some 2 (5 : Nat)) 7).1 = 5 ∧
    ¬ ((unwrap_or (Some 2 (5 : Nat)) 7).1 =
        if is_some (Some 2 (5 : Nat)) = true then unwrap (Some 2 (5 : Nat)) else 7) := by
  decide

/-- Where the flag is 0 or 1, the values the factories pass, `unwrap_or(d)`
returns the held value when `is_some()` is true and `d` otherwise, and the call
leaves the Option (flag and value) unchanged. -/
theorem unwrap_or_flag_bool (o : Option T) (d : T)
    (hflag : o.has_val_ = 0 ∨ o.has_val_ = 1) :
    (unwrap_or o d).1 = (if is_some o = true then unwrap o else d) ∧
    (unwrap_or o d).2 = o := by
  refine ⟨?_, rfl⟩
  rcases hflag with h | h <;> simp [unwrap_or, is_some, unwrap, h]

/-- The behaviour of `unwrap_or` with flag 1 and with flag 0, at the value 5
and the default 7. -/
theorem unwrap_or_flag_bool_witness :
    ((unwrap_or ({ has_val_ := 1, val_ := 5 } : Option Nat) 7).1 = 5 ∧
      (unwrap_or ({ has_val_ := 1, val_ := 5 } : Option Nat) 7).2
        = { has_val_ := 1, val_ := 5 }) ∧
    ((unwrap_or ({ has_val_ := 0, val_ := 5 } : Option Nat) 7).1 = 7 ∧
      (unwrap_or ({ has_val_ := 0, val_ := 5 } : Option Nat) 7).2
        = { has_val_ := 0, val_ := 5 }) :=
  ⟨unwrap_or_flag_bool { has_val_ := 1, val_ := 5 } 7 (Or.inr rfl),
   unwrap_or_flag_bool { has_val_ := 0, val_ := 5 } 7 (Or.inl rfl)⟩

/-- C10 (defect in the code): `copy_from` passes the flag of its argument, but
the constructor it calls initialises `has_val_` from itself.  Copying the present
`{has_val_ = 1, val_ = 42}` into storage whose byte is 0 gives an object that
answers `is_some() == false`; its `unwrap()` is 42 and the argument is left as it
was.  In general the flag of the copy is the byte the storage held. -/
theorem copy_from_flag_from_storage :
    (is_some (copy_from 0 ({ has_val_ := 1, val_ := 42 } : Option Nat)).1 = false ∧
      unwrap (copy_from 0 ({ has_val_ := 1, val_ := 42 } : Option Nat)).1 = 42 ∧
      (copy_from 0 ({ has_val_ := 1, val_ := 42 } : Option Nat)).2
        = { has_val_ := 1, val_ := 42 }) ∧
    (∀ (mem : uchar) (o : Option Nat),
      (copy_from mem o).1.has_val_ = mem ∧ (copy_from mem o).1.val_ = o.val_ ∧
      (copy_from mem o).2 = o) := by
  refine ⟨by decide, ?_⟩
  intro mem o
  simp [copy_from, ctor_copy]

/-- C12 as stated fails: the source of a move construction from `Some(42)` (built
in storage whose byte is 1) answers `is_none() == true`, and `unwrap()` on it
returns the stale 42; it does not report `EmptyAccess`. -/
theorem unwrap_absent_stale :
    is_none (move_ctor (Some 1 (42 : Nat))).2 = true ∧
    unwrap_outcome (move_ctor (Some 1 (42 : Nat))).2 = Outcome.returns 42 ∧
    unwrap_outcome (move_ctor (Some 1 (42 : Nat))).2
      ≠ Outcome.fails AccessError.EmptyAccess := by
  decide

/-- C12 amended: for every Option with `is_none()` true, `unwrap()` reports no
failure; it returns the stored `val_` as it is. -/
theorem unwrap_absent_returns (o : Option T) (habsent : is_none o = true) :
    unwrap_outcome o = Outcome.returns o.val_ ∧
    unwrap_outcome o ≠ Outcome.fails AccessError.EmptyAccess := by
  have _ := habsent
  refine ⟨rfl, ?_⟩
  intro hfail
  cases hfail

/-- Witness of C12 amended at `None()` for `int` in storage whose byte is 0:
`unwrap()` returns the value-initialised 0. -/
theorem unwrap_absent_returns_witness :
    is_none (None 0 : Option Int) = true ∧
    unwrap_outcome (None 0 : Option Int) = Outcome.returns 0 ∧
    unwrap_outcome (None 0 : Option Int) ≠ Outcome.fails AccessError.EmptyAccess :=
  ⟨by decide, unwrap_absent_returns (None 0 : Option Int) (by decide)⟩

/-- C17 (defect in the code): the flag-taking constructors initialise `has_val_`
from itself, so an obtainable Option can carry any byte as its flag.  `Some(5)`
built in storage whose byte is 2 has `has_val_ == 2`: `is_some()` and
`is_none()` are both false, and the presence test of `unwrap_or` succeeds
(`unwrap_or(7)` returns 5) although `is_some()` is false. -/
theorem obtainable_flag_any_byte :
    (Obtainable (Some 2 (5 : Nat)) ∧
      (Some 2 (5 : Nat)).has_val_ = 2 ∧
      is_some (Some 2 (5 : Nat)) = false ∧
      is_none (Some 2 (5 : Nat)) = false ∧
      (unwrap_or (Some 2 (5 : Nat)) 7).1 = 5) ∧
    (∀ m : uchar, ∃ o : Option Nat, Obtainable o ∧ o.has_val_ = m) := by
  refine ⟨⟨Obtainable.some 2 5, by decide, by decide, by decide, by decide⟩, ?_⟩
  intro m
  exact ⟨Some m 0, Obtainable.some m 0, rfl⟩

/-- C18 (defect in the code): each protected constructor that takes a flag
initialises `has_val_` from itself and never reads the parameter.  Given the
flag 1 in storage whose byte is 0, `Option(1, v)` in the move and the copy form
and `Option(1)` have `has_val_ == 0`; given the flag 0 in storage whose byte is
1 they have `has_val_ == 1`.  In general the member is the storage byte. -/
theorem ctor_flag_not_stored :
    ((ctor_move 0 1 (42 : Nat)).has_val_ = 0 ∧
      (ctor_copy 0 1 (42 : Nat)).has_val_ = 0 ∧
      (ctor_flag 0 1 : Option Nat).has_val_ = 0) ∧
    ((ctor_move 1 0 (42 : Nat)).has_val_ = 1 ∧
      (ctor_copy 1 0 (42 : Nat)).has_val_ = 1 ∧
      (ctor_flag 1 0 : Option Nat).has_val_ = 1) ∧
    (∀ (mem f : uchar) (v : Nat),
      (ctor_move mem f v).has_val_ = mem ∧
      (ctor_copy mem f v).has_val_ = mem ∧
      (ctor_flag mem f : Option Nat).has_val_ = mem) := by
  refine ⟨by decide, by decide, ?_⟩
  intro mem f v
  exact ⟨rfl, rfl, rfl⟩

end Option

/-! ## Properties of `Switch` -/

namespace Heap

variable {A B : Type}

/-- Dereferencing the pointer returned by `new` in the store after it yields the
object that was constructed. -/
theorem deref_alloc (h : Heap A B) (x : A ⊕ B) :
    (h.alloc x).2.deref (h.alloc x).1 = some x := by
  simp [deref, alloc]

/-- A pointer that is defined keeps its pointee when the store grows. -/
theorem deref_alloc_of_some (h : Heap A B) (p : ptr) (x y : A ⊕ B)
    (hp : h.deref p = some x) : (h.alloc y).2.deref p = some x := by
  unfold deref at hp ⊢
  by_cases h0 : p = 0
  · simp [h0] at hp
  · simp only [h0, if_false] at hp ⊢
    have hlt : p - 1 < h.cells.length := by
      rcases List.getElem?_eq_some.mp hp with ⟨hlt, _⟩
      exact hlt
    simp only [alloc]
    rw [List.getElem?_append_left hlt]
    exact hp

/-- The null pointer has no pointee. -/
theorem deref_null (h : Heap A B) : h.deref 0 = none := by
  simp [deref]

/-- Each `new` adds one outstanding allocation. -/
theorem outstanding_alloc (h : Heap A B) (x : A ⊕ B) :
    (h.alloc x).2.outstanding = h.outstanding + 1 := by
  simp [outstanding, alloc]

end Heap

namespace Switch

variable {A B : Type}

/-- C3 (defect in the code): every constructor stores `is_first_ = 1`, also the
two that construct a `_Type_2`, and `is_second()` tests `is_first_ != 0`.  So
`First(a)` answers `is_first() == true` and `is_second() == true`, and
`Second(b)` answers `is_second() == true` and `is_first() == true`: the two
answers the claim requires to be false are true. -/
theorem factory_discriminant (a : A) (b : B) (h : Heap A B) :
    (is_first (First a h).1 = true ∧ is_second (First a h).1 = true) ∧
    (is_second (Second b h).1 = true ∧ is_first (Second b h).1 = true) ∧
    (is_second (First_const_ref a h).1 = true ∧ is_first (Second_const_ref b h).1 = true) ∧
    (First a h).1.is_first_ = 1 ∧ (Second b h).1.is_first_ = 1 := by
  simp [First, Second, First_const_ref, Second_const_ref, ctor_move_1, ctor_move_2,
    ctor_copy_1, ctor_copy_2, is_first, is_second]

/-- C4 (defect in the code): `is_first()` is `is_first_ == 1` and `is_second()`
is `is_first_ != 0`, so exactly one of them is true only for a tag byte other
than 0 and 1.  With tag 1, the tag of every constructed Switch such as
`First(42)`, both are true; with tag 0 both are false. -/
theorem is_first_is_second_tag :
    (is_first (First (42 : Nat) (Heap.empty : Heap Nat String)).1 = true ∧
      is_second (First (42 : Nat) (Heap.empty : Heap Nat String)).1 = true) ∧
    (is_first ({ is_first_ := 0, data_ := 0 } : Switch Nat String) = false ∧
      is_second ({ is_first_ := 0, data_ := 0 } : Switch Nat String) = false) ∧
    (∀ s : Switch A B,
      (is_first s ≠ is_second s) ↔ (s.is_first_ ≠ 0 ∧ s.is_first_ ≠ 1)) := by
  refine ⟨by decide, by decide, ?_⟩
  intro s
  by_cases h0 : s.is_first_ = 0
  · simp [is_first, is_second, h0]
  · by_cases h1 : s.is_first_ = 1
    · simp [is_first, is_second, h1]
    · simp [is_first, is_second, bne, h0, h1]

/-- C7: `First(a).get_first()` is defined and equals `a`, and
`Second(b).get_second()` is defined and equals `b`, for the moving and the
copying overloads of the factories and from any state of the free store. -/
theorem get_First_get_Second [Reinterpret A B] (a : A) (b : B) (h : Heap A B) :
    get_first (First a h).1 (First a h).2 = some a ∧
    get_second (Second b h).1 (Second b h).2 = some b ∧
    get_first (First_const_ref a h).1 (First_const_ref a h).2 = some a ∧
    get_second (Second_const_ref b h).1 (Second_const_ref b h).2 = some b := by
  simp [First, Second, First_const_ref, Second_const_ref, ctor_move_1, ctor_move_2,
    ctor_copy_1, ctor_copy_2, get_first, get_second, Heap.deref_alloc]

/-- A union that holds its value points to that value and carries the tag 1. -/
theorem Holding.deref_tag {s : Switch A B} {h : Heap A B} {x : A ⊕ B}
    (hs : Holding s h x) : h.deref s.data_ = some x ∧ s.is_first_ = 1 := by
  induction hs with
  | first_default h => exact ⟨Heap.deref_alloc h _, rfl⟩
  | first a h => exact ⟨Heap.deref_alloc h _, rfl⟩
  | first_const_ref a h => exact ⟨Heap.deref_alloc h _, rfl⟩
  | second_default h => exact ⟨Heap.deref_alloc h _, rfl⟩
  | second b h => exact ⟨Heap.deref_alloc h _, rfl⟩
  | second_const_ref b h => exact ⟨Heap.deref_alloc h _, rfl⟩
  | move_dst _ ih => exact ih
  | grow y _ ih => exact ⟨Heap.deref_alloc_of_some _ _ _ y ih.1, ih.2⟩

/-- Every obtainable union carries the tag 1. -/
theorem Obtainable.tag {s : Switch A B} (hs : Obtainable s) : s.is_first_ = 1 := by
  induction hs with
  | holding hh => exact hh.deref_tag.2
  | move_dst _ ih => exact ih
  | move_src _ _ => rfl
  | move_from_dst _ ih => exact ih
  | move_from_src _ _ => rfl

/-- Constructing and destroying one union per list element leaves one more
outstanding allocation per element. -/
theorem construct_destroy_outstanding (xs : List (A ⊕ B)) (h : Heap A B) :
    (construct_destroy xs h).outstanding = h.outstanding + xs.length := by
  induction xs generalizing h with
  | nil => simp [construct_destroy]
  | cons x xs ih =>
    cases x with
    | inl a =>
      simp only [construct_destroy, dtor, First, ctor_move_1, List.length_cons]
      rw [ih, Heap.outstanding_alloc]
      omega
    | inr b =>
      simp only [construct_destroy, dtor, Second, ctor_move_2, List.length_cons]
      rw [ih, Heap.outstanding_alloc]
      omega

/-- C11: move construction gives the destination the stored pointer and the
`is_first_` of the source, and leaves the source with a null `data_`.  In every
state of the free store the destination reads what the source read before,
and the source afterwards points to no object: neither `get_first()` nor
`get_second()` is defined on it.  The free store itself is not touched. -/
theorem move_ctor_transfers [Reinterpret A B] (s : Switch A B) (h : Heap A B) :
    ((move_ctor s).1.data_ = s.data_ ∧ (move_ctor s).1.is_first_ = s.is_first_) ∧
    ((move_ctor s).2.data_ = 0 ∧ h.deref (move_ctor s).2.data_ = none) ∧
    (get_first (move_ctor s).2 h = none ∧ get_second (move_ctor s).2 h = none) ∧
    (get_first (move_ctor s).1 h = get_first s h ∧
      get_second (move_ctor s).1 h = get_second s h) := by
  refine ⟨⟨rfl, rfl⟩, ⟨rfl, Heap.deref_null h⟩, ⟨?_, ?_⟩, ⟨rfl, rfl⟩⟩
  · simp [get_first, move_ctor, Heap.deref_null]
  · simp [get_second, move_ctor, Heap.deref_null]

/-- C13 as stated fails: no `WrongVariantAccess` is reported.  For
`Switch<int,std::string>`, `get_first()` on `Second("x")` and `get_second()` on
`First(42)` read the stored object at the other type, which is undefined; for
`Switch<int,unsigned>`, `get_first()` on `Second(7u)` returns 7. -/
theorem get_inactive_no_report :
    (get_first_outcome (Second "x" (Heap.empty : Heap Nat String)).1
        (Second "x" (Heap.empty : Heap Nat String)).2 = Outcome.undefined ∧
      get_first_outcome (Second "x" (Heap.empty : Heap Nat String)).1
        (Second "x" (Heap.empty : Heap Nat String)).2
        ≠ Outcome.fails AccessError.WrongVariantAccess) ∧
    (get_second_outcome (First 42 (Heap.empty : Heap Nat String)).1
        (First 42 (Heap.empty : Heap Nat String)).2 = Outcome.undefined ∧
      get_second_outcome (First 42 (Heap.empty : Heap Nat String)).1
        (First 42 (Heap.empty : Heap Nat String)).2
        ≠ Outcome.fails AccessError.WrongVariantAccess) ∧
    (get_first_outcome (Second 7 (Heap.empty : Heap Int Nat)).1
        (Second 7 (Heap.empty : Heap Int Nat)).2 = Outcome.returns 7 ∧
      get_first_outcome (Second 7 (Heap.empty : Heap Int Nat)).1
        (Second 7 (Heap.empty : Heap Int Nat)).2
        ≠ Outcome.fails AccessError.WrongVariantAccess) := by
  have h1 : get_first_outcome (Second "x" (Heap.empty : Heap Nat String)).1
      (Second "x" (Heap.empty : Heap Nat String)).2 = Outcome.undefined := rfl
  have h2 : get_second_outcome (First 42 (Heap.empty : Heap Nat String)).1
      (First 42 (Heap.empty : Heap Nat String)).2 = Outcome.undefined := rfl
  have h3 : get_first_outcome (Second 7 (Heap.empty : Heap Int Nat)).1
      (Second 7 (Heap.empty : Heap Int Nat)).2 = Outcome.returns 7 := by decide
  refine ⟨⟨h1, ?_⟩, ⟨h2, ?_⟩, ⟨h3, ?_⟩⟩
  · rw [h1]
    intro hfail
    cases hfail
  · rw [h2]
    intro hfail
    cases hfail
  · rw [h3]
    intro hfail
    cases hfail

/-- C13 amended: `get_first()` on a union built by `Second(b)` and
`get_second()` on a union built by `First(a)` report no failure, neither
`WrongVariantAccess` nor any other, for every pair of types and for the moving
and the copying overloads of the factories. -/
theorem get_inactive_no_failure [Reinterpret A B] (a : A) (b : B) (h : Heap A B)
    (e : AccessError) :
    get_first_outcome (Second b h).1 (Second b h).2 ≠ Outcome.fails e ∧
    get_second_outcome (First a h).1 (First a h).2 ≠ Outcome.fails e ∧
    get_first_outcome (Second_const_ref b h).1 (Second_const_ref b h).2
      ≠ Outcome.fails e ∧
    get_second_outcome (First_const_ref a h).1 (First_const_ref a h).2
      ≠ Outcome.fails e := by
  have hfirst : ∀ (s : Switch A B) (k : Heap A B), get_first_outcome s k ≠ Outcome.fails e := by
    intro s k hfail
    unfold get_first_outcome at hfail
    split at hfail <;> cases hfail
  have hsecond : ∀ (s : Switch A B) (k : Heap A B),
      get_second_outcome s k ≠ Outcome.fails e := by
    intro s k hfail
    unfold get_second_outcome at hfail
    split at hfail <;> cases hfail
  exact ⟨hfirst _ _, hsecond _ _, hfirst _ _, hsecond _ _⟩

/-- C14 (defect in the code): `Switch` has no destructor and `Result.hpp` has no
`delete`, so destroying a union releases nothing.  One `First(42)` constructed
and destroyed on an empty free store leaves 1 allocation outstanding, three
unions leave 3, and in general N unions leave N more than before. -/
theorem destroy_releases_nothing :
    (construct_destroy [Sum.inl 42] (Heap.empty : Heap Nat String)).outstanding = 1 ∧
    (construct_destroy [Sum.inl 42, Sum.inr "x", Sum.inl 7]
      (Heap.empty : Heap Nat String)).outstanding = 3 ∧
    (∀ (xs : List (Nat ⊕ String)) (h : Heap Nat String),
      (construct_destroy xs h).outstanding = h.outstanding + xs.length) ∧
    (∀ (s : Switch Nat String) (h : Heap Nat String), dtor s h = h) := by
  refine ⟨rfl, rfl, ?_, ?_⟩
  · intro xs h
    exact construct_destroy_outstanding xs h
  · intro s h
    rfl

/-- C15: on every obtainable union (built by any factory, the destination of a
move construction, or a moved-from source) `is_second()` returns the same as
`is_first()`, and both return true. -/
theorem is_second_eq_is_first {s : Switch A B} (hs : Obtainable s) :
    is_second s = is_first s ∧ is_first s = true ∧ is_second s = true := by
  have htag := hs.tag
  simp [is_first, is_second, htag]

/-- Witness of C15 at `Second("x")` and at the moved-from source of a move
construction from it. -/
theorem is_second_eq_is_first_witness :
    (is_second (Second "x" (Heap.empty : Heap Nat String)).1
        = is_first (Second "x" (Heap.empty : Heap Nat String)).1 ∧
      is_first (Second "x" (Heap.empty : Heap Nat String)).1 = true ∧
      is_second (Second "x" (Heap.empty : Heap Nat String)).1 = true) ∧
    (is_second (move_ctor (Second "x" (Heap.empty : Heap Nat String)).1).2
        = is_first (move_ctor (Second "x" (Heap.empty : Heap Nat String)).1).2 ∧
      is_first (move_ctor (Second "x" (Heap.empty : Heap Nat String)).1).2 = true ∧
      is_second (move_ctor (Second "x" (Heap.empty : Heap Nat String)).1).2 = true) :=
  ⟨is_second_eq_is_first (Obtainable.holding (Holding.second "x" Heap.empty)),
   is_second_eq_is_first
     (Obtainable.move_src (Obtainable.holding (Holding.second "x" Heap.empty)))⟩

/-- C16 as stated fails at three obtainable unions.  `Second("x")` answers
`is_first() == true` but `get_first()` is undefined on it; `First(42)` answers
`is_second() == true` but `get_second()` is undefined on it; the moved-from
source of a move construction from `First(42)` answers `is_first() == true` but
points to nothing, so `get_first()` is undefined on it. -/
theorem guard_fails :
    (Obtainable (Second "x" (Heap.empty : Heap Nat String)).1 ∧
      is_first (Second "x" (Heap.empty : Heap Nat String)).1 = true ∧
      get_first (Second "x" (Heap.empty : Heap Nat String)).1
        (Second "x" (Heap.empty : Heap Nat String)).2 = none) ∧
    (Obtainable (First 42 (Heap.empty : Heap Nat String)).1 ∧
      is_second (First 42 (Heap.empty : Heap Nat String)).1 = true ∧
      get_second (First 42 (Heap.empty : Heap Nat String)).1
        (First 42 (Heap.empty : Heap Nat String)).2 = none) ∧
    (Obtainable (move_ctor (First 42 (Heap.empty : Heap Nat String)).1).2 ∧
      is_first (move_ctor (First 42 (Heap.empty : Heap Nat String)).1).2 = true ∧
      get_first (move_ctor (First 42 (Heap.empty : Heap Nat String)).1).2
        (First 42 (Heap.empty : Heap Nat String)).2 = none) :=
  ⟨⟨Obtainable.holding (Holding.second "x" Heap.empty), rfl, rfl⟩,
   ⟨Obtainable.holding (Holding.first 42 Heap.empty), rfl, rfl⟩,
   ⟨Obtainable.move_src (Obtainable.holding (Holding.first 42 Heap.empty)), rfl, rfl⟩⟩

/-- C16 amended: a union that was built by a `First` factory, or move-constructed
from such a union, and has not been moved from, answers `is_first() == true` and
`get_first()` is defined on it and returns the constructed value; one built by
a `Second` factory, or move-constructed from such a union, answers
`is_second() == true` and `get_second()` is defined and returns the constructed
value.  The source it leaves behind when it is moved from holds no value:
`get_first()` and `get_second()` are undefined on it. -/
theorem holding_guard [Reinterpret A B] {s : Switch A B} {h : Heap A B} {x : A ⊕ B}
    (hs : Holding s h x) :
    (match x with
      | Sum.inl a => is_first s = true ∧ get_first s h = some a
      | Sum.inr b => is_second s = true ∧ get_second s h = some b) ∧
    (get_first (move_ctor s).2 h = none ∧ get_second (move_ctor s).2 h = none) := by
  obtain ⟨hd, htag⟩ := hs.deref_tag
  refine ⟨?_, ?_⟩
  · cases x with
    | inl a => simp [is_first, get_first, hd, htag]
    | inr b => simp [is_second, get_second, hd, htag]
  · simp [get_first, get_second, move_ctor, Heap.deref_null]

/-- Witness of C16 amended at the destination of a move construction from
`First(42)` and at `Second("x")`. -/
theorem holding_guard_witness :
    ((is_first (move_ctor (First 42 (Heap.empty : Heap Nat String)).1).1 = true ∧
        get_first (move_ctor (First 42 (Heap.empty : Heap Nat String)).1).1
          (First 42 (Heap.empty : Heap Nat String)).2 = some 42) ∧
      (get_first (move_ctor (move_ctor (First 42 (Heap.empty : Heap Nat String)).1).1).2
          (First 42 (Heap.empty : Heap Nat String)).2 = none ∧
        get_second (move_ctor (move_ctor (First 42 (Heap.empty : Heap Nat String)).1).1).2
          (First 42 (Heap.empty : Heap Nat String)).2 = none)) ∧
    ((is_second (Second "x" (Heap.empty : Heap Nat String)).1 = true ∧
        get_second (Second "x" (Heap.empty : Heap Nat String)).1
          (Second "x" (Heap.empty : Heap Nat String)).2 = some "x") ∧
      (get_first (move_ctor (Second "x" (Heap.empty : Heap Nat String)).1).2
          (Second "x" (Heap.empty : Heap Nat String)).2 = none ∧
        get_second (move_ctor (Second "x" (Heap.empty : Heap Nat String)).1).2
          (Second "x" (Heap.empty : Heap Nat String)).2 = none)) :=
  ⟨holding_guard (Holding.move_dst (Holding.first 42 Heap.empty)),
   holding_guard (Holding.second "x" Heap.empty)⟩

end Switch

end tresult
